import Mathlib

/-!
Shallow embedding of the PowerClash runtime module
(src/apps/web/games/pc/features/startGame.ts, class `PowerClash`).

Modelling conventions:
* o1js `Field` is the prime field of order `pallasP` (the o1js base-field
  modulus), embedded as `ZMod pallasP`.
* o1js `PublicKey` is an abstract identity, embedded as `Nat`;
  `PublicKey.empty()` is the distinguished identity `emptyPK = 0`.
* o1js `UInt64` block heights, deadlines and ids are embedded as `Nat`
  (o1js `UInt64` arithmetic aborts on overflow rather than wrapping, so
  unbounded `Nat` addition is faithful on every non-aborting execution).
* `Poseidon.hash([move, salt])` is kept abstract: the module is
  parameterised by a `hash : F → F → F` function, since every behaviour of
  the source depends only on equality of hash outputs.
* proto-kit `assert(cond, msg)` marks the transaction failed and the host
  reverts all state writes of the call (spec section 7: atomic
  apply-or-fail).  Each runtime method is therefore embedded as an
  `Except Err` computation: an `Except.error` result models the aborted
  transaction, leaving all state untouched.
* The proto-kit `StateMap.get(...).value` of a missing key yields the
  all-zero dummy value of the stored struct; `getGame` mirrors this with
  `defaultGame`.
-/

/-- Order of the o1js base field (the modulus of o1js `Field`). -/
def pallasP : Nat :=
  28948022309329048855892746252171976963363056481941560715954676764349967630337

/-- o1js `Field`, embedded as the prime field of order `pallasP`. -/
abbrev F : Type := ZMod pallasP

/-- o1js `PublicKey`, embedded as an abstract identity. -/
abbrev PK : Type := Nat

/-- `PublicKey.empty()`, the distinguished empty identity. -/
def emptyPK : PK := 0

namespace PowerClash

/-- `ROUNDS_TO_WIN = 2` (best of 3). -/
def ROUNDS_TO_WIN : Nat := 2

/-- `MOVE_TIME_LIMIT = 50` blocks per move window. -/
def MOVE_TIME_LIMIT : Nat := 50

/-- The `RPSLSMove` struct: a move index together with its secret salt. -/
structure RPSLSMove where
  move : F
  salt : F
deriving DecidableEq, Repr

/-- The sentinel "unset move" value `new RPSLSMove({ move: Field(-1), salt: Field(0) })`. -/
def sentinelMove : RPSLSMove := ⟨-1, 0⟩

/-- The `Game` struct of the source, field for field. -/
structure Game where
  id : Nat
  player1 : PK
  player2 : PK
  player1Commitment : F
  player2Commitment : F
  player1Move : RPSLSMove
  player2Move : RPSLSMove
  player1Wins : F
  player2Wins : F
  commitmentDeadline : Nat
  revealDeadline : Nat
  gameWinner : PK
  lastMoveBlockHeight : Nat
deriving DecidableEq, Repr

/-- The all-zero dummy `Game` produced by reading a missing `StateMap` key. -/
def defaultGame : Game :=
  { id := 0, player1 := emptyPK, player2 := emptyPK,
    player1Commitment := 0, player2Commitment := 0,
    player1Move := ⟨0, 0⟩, player2Move := ⟨0, 0⟩,
    player1Wins := 0, player2Wins := 0,
    commitmentDeadline := 0, revealDeadline := 0,
    gameWinner := emptyPK, lastMoveBlockHeight := 0 }

/-- One recorded `acquireFunds(matchId, winner, loser, winnerShare, loserShare, drawShare)`
call to the matchmaking collaborator. -/
structure AcquireFundsCall where
  matchId : Nat
  winner : PK
  loser : PK
  winnerShare : Nat
  loserShare : Nat
  drawShare : Nat
deriving DecidableEq, Repr

/-- The module's mutable state: the `games` and `gameFund` state maps, the
per-player `activeGameId` pointers, and the log of outgoing calls to the
matchmaking collaborator (`acquireFunds` and the `_onLobbyEnd` hook). -/
structure ModuleState where
  games : Nat → Option Game
  gameFund : Nat → Option Nat
  activeGameId : PK → Nat
  fundsCalls : List AcquireFundsCall
  lobbyEndCalls : List (Nat × Bool)

/-- A module state with no games, no funds and no recorded collaborator calls. -/
def emptyState : ModuleState :=
  { games := fun _ => none, gameFund := fun _ => none,
    activeGameId := fun _ => 0, fundsCalls := [], lobbyEndCalls := [] }

/-- `(await this.games.get(gameId)).value`. -/
def getGame (st : ModuleState) (gameId : Nat) : Game :=
  (st.games gameId).getD defaultGame

/-- Failure taxonomy: one constructor per `assert` message of the source. -/
inductive Err where
  | GameFinished
  | NotAParticipant
  | CommitWindowClosed
  | RevealWindowClosed
  | RevealMismatch
  | OpponentNotTimedOut
deriving DecidableEq, Repr

/-- The `p1Wins` boolean of `determineWinner`: the tabulated relation in
which `move1` beats `move2`. -/
def p1Beats (move1 move2 : F) : Bool :=
  (move1 == 0 && (move2 == 2 || move2 == 3)) ||
  ((move1 == 1 && (move2 == 0 || move2 == 4)) ||
   ((move1 == 2 && (move2 == 1 || move2 == 3)) ||
    ((move1 == 3 && (move2 == 1 || move2 == 4)) ||
     (move1 == 4 && (move2 == 0 || move2 == 2)))))

/-- `determineWinner`: returns `player1` if the table says `move1` beats
`move2`, the empty key on equal moves, and `player2` otherwise. -/
def determineWinner (move1 move2 : F) (player1 player2 : PK) : PK :=
  if p1Beats move1 move2 then player1
  else if move1 = move2 then emptyPK else player2

/-- `endGame`: records the `acquireFunds` settlement call (an even 1:1 split
if no winner is set, else 2:0 for the winner), clears both players'
`activeGameId` pointers and records the `_onLobbyEnd(game.id, true)` call. -/
def endGame (st : ModuleState) (game : Game) : ModuleState :=
  let st :=
    if game.gameWinner = emptyPK then
      { st with fundsCalls :=
          st.fundsCalls ++ [AcquireFundsCall.mk game.id game.player1 game.player2 1 1 0] }
    else
      let loser := if game.gameWinner = game.player1 then game.player2 else game.player1
      { st with fundsCalls :=
          st.fundsCalls ++ [AcquireFundsCall.mk game.id game.gameWinner loser 2 0 0] }
  let st := { st with activeGameId := Function.update st.activeGameId game.player1 0 }
  let st := { st with activeGameId := Function.update st.activeGameId game.player2 0 }
  { st with lobbyEndCalls := st.lobbyEndCalls ++ [(game.id, true)] }

/-- `commitMove(gameId, commitment)` executed by `sender` at block height `now`. -/
def commitMove (st : ModuleState) (now : Nat) (sender : PK) (gameId : Nat)
    (commitment : F) : Except Err (ModuleState × Game) :=
  let game := getGame st gameId
  if game.gameWinner = emptyPK then
    if sender = game.player1 ∨ sender = game.player2 then
      if now ≤ game.commitmentDeadline then
        let game :=
          if sender = game.player1 then { game with player1Commitment := commitment }
          else { game with player2Commitment := commitment }
        let game := { game with lastMoveBlockHeight := now }
        .ok ({ st with games := Function.update st.games gameId (some game) }, game)
      else .error .CommitWindowClosed
    else .error .NotAParticipant
  else .error .GameFinished

/-- Win-counter update of `revealMove`: increment the round winner's counter. -/
def bumpWins (game : Game) (roundWinner : PK) : Game :=
  if roundWinner = game.player1 then
    { game with player1Wins := game.player1Wins + 1 }
  else if roundWinner = game.player2 then
    { game with player2Wins := game.player2Wins + 1 }
  else game

/-- The "reset for next round" block of `revealMove`: commitments cleared,
moves back to sentinel, fresh deadlines measured from the current height. -/
def resetRound (now : Nat) (game : Game) : Game :=
  { game with
    player1Commitment := 0, player2Commitment := 0,
    player1Move := sentinelMove, player2Move := sentinelMove,
    commitmentDeadline := now + MOVE_TIME_LIMIT,
    revealDeadline := now + MOVE_TIME_LIMIT * 2 }

/-- Final stamp-and-persist step shared by every `revealMove` path:
`game.lastMoveBlockHeight = now; games.set(gameId, game)`. -/
def persistMove (st : ModuleState) (now : Nat) (gameId : Nat) (game : Game)
    (roundWinner : Option PK) : ModuleState × Game × Option PK :=
  let game := { game with lastMoveBlockHeight := now }
  ({ st with games := Function.update st.games gameId (some game) }, game, roundWinner)

/-- Tail of `revealMove` after the revealed move has been stored: if both
moves are non-sentinel, resolve the round, update counters, and either
conclude the match (threshold reached) or reset for the next round. -/
def revealFinish (st : ModuleState) (now : Nat) (gameId : Nat) (game : Game) :
    ModuleState × Game × Option PK :=
  if game.player1Move.move ≠ (-1 : F) ∧ game.player2Move.move ≠ (-1 : F) then
    let roundWinner :=
      determineWinner game.player1Move.move game.player2Move.move game.player1 game.player2
    let game := bumpWins game roundWinner
    if game.player1Wins = (ROUNDS_TO_WIN : F) then
      let game := { game with gameWinner := game.player1 }
      let st := endGame st game
      persistMove st now gameId game (some roundWinner)
    else if game.player2Wins = (ROUNDS_TO_WIN : F) then
      let game := { game with gameWinner := game.player2 }
      let st := endGame st game
      persistMove st now gameId game (some roundWinner)
    else
      persistMove st now gameId (resetRound now game) (some roundWinner)
  else
    persistMove st now gameId game none

/-- `revealMove(gameId, move)` executed by `sender` at block height `now`,
with `hash` standing for `Poseidon.hash([move, salt])`. -/
def revealMove (hash : F → F → F) (st : ModuleState) (now : Nat) (sender : PK)
    (gameId : Nat) (mv : RPSLSMove) : Except Err (ModuleState × Game × Option PK) :=
  let game := getGame st gameId
  if game.gameWinner = emptyPK then
    if sender = game.player1 ∨ sender = game.player2 then
      if now ≤ game.revealDeadline then
        let commitment := hash mv.move mv.salt
        if sender = game.player1 then
          if commitment = game.player1Commitment then
            .ok (revealFinish st now gameId { game with player1Move := mv })
          else .error .RevealMismatch
        else
          if commitment = game.player2Commitment then
            .ok (revealFinish st now gameId { game with player2Move := mv })
          else .error .RevealMismatch
      else .error .RevealWindowClosed
    else .error .NotAParticipant
  else .error .GameFinished

/-- The stored game after `revealMove` writes the revealed move into the
sender's slot (the state just before round resolution). -/
def storeReveal (sender : PK) (game : Game) (mv : RPSLSMove) : Game :=
  if sender = game.player1 then { game with player1Move := mv }
  else { game with player2Move := mv }

/-- The commitment slot that `revealMove` checks for the given sender. -/
def senderCommitment (sender : PK) (game : Game) : F :=
  if sender = game.player1 then game.player1Commitment else game.player2Commitment

/-- The round winner `revealMove` computes from the two stored moves. -/
def roundWinnerOf (game : Game) : PK :=
  determineWinner game.player1Move.move game.player2Move.move game.player1 game.player2

/-- The game after the sender's reveal is stored and the round winner's
counter has been incremented (the state the win-threshold checks read). -/
def afterWins (sender : PK) (game : Game) (mv : RPSLSMove) : Game :=
  bumpWins (storeReveal sender game mv) (roundWinnerOf (storeReveal sender game mv))

/-- `claimTimeoutVictory(gameId)` executed by `sender` at block height `now`. -/
def claimTimeoutVictory (st : ModuleState) (now : Nat) (sender : PK) (gameId : Nat) :
    Except Err (ModuleState × Game) :=
  let game := getGame st gameId
  if game.gameWinner = emptyPK then
    if game.lastMoveBlockHeight + MOVE_TIME_LIMIT < now then
      let game :=
        { game with gameWinner :=
            if sender = game.player1 then game.player1 else game.player2 }
      let st := endGame st game
      .ok ({ st with games := Function.update st.games gameId (some game) }, game)
    else .error .OpponentNotTimedOut
  else .error .GameFinished

/-- The matchmaking `Lobby` handoff: two paired players and the participation fee. -/
structure Lobby where
  players : Fin 2 → PK
  participationFee : Nat

/-- `initGame(lobby, shouldInit)` at block height `now`.  The match id is
allocated by `super.initGame` — modelled from the spec: id allocation is
delegated to the matchmaking collaborator (the `MatchMaker` base class,
outside this repository), so the allocated id is taken as the `gameId`
parameter and returned unchanged. -/
def initGame (st : ModuleState) (now : Nat) (gameId : Nat) (lobby : Lobby)
    (shouldInit : Bool) : ModuleState × Nat :=
  let game : Game :=
    { id := gameId, player1 := lobby.players 0, player2 := lobby.players 1,
      player1Commitment := 0, player2Commitment := 0,
      player1Move := sentinelMove, player2Move := sentinelMove,
      player1Wins := 0, player2Wins := 0,
      commitmentDeadline := now + MOVE_TIME_LIMIT,
      revealDeadline := now + MOVE_TIME_LIMIT * 2,
      gameWinner := emptyPK, lastMoveBlockHeight := now }
  if shouldInit then
    ({ st with
        games := Function.update st.games gameId (some game),
        gameFund := Function.update st.gameFund gameId
          (some (lobby.participationFee * 2)) }, gameId)
  else
    (st, gameId)

/-- `getGameState(gameId)`: pure read of the stored record. -/
def getGameState (st : ModuleState) (gameId : Nat) : Game :=
  getGame st gameId

/-- A concrete stand-in hash used to instantiate the `hash` parameter in
closed witness scenarios (the theorems themselves hold for every hash). -/
def demoHash : F → F → F := fun m s => m * 131 + s + 1

/-- A concrete in-progress game between players 11 and 22 used by witnesses. -/
def demoGame : Game :=
  { id := 1, player1 := 11, player2 := 22,
    player1Commitment := 0, player2Commitment := 0,
    player1Move := sentinelMove, player2Move := sentinelMove,
    player1Wins := 0, player2Wins := 0,
    commitmentDeadline := 60, revealDeadline := 110,
    gameWinner := emptyPK, lastMoveBlockHeight := 10 }

/-- A module state holding `demoGame` under match id 1. -/
def demoState : ModuleState :=
  { games := fun i => if i = 1 then some demoGame else none,
    gameFund := fun _ => none, activeGameId := fun _ => 0,
    fundsCalls := [], lobbyEndCalls := [] }

/-- `demoGame` after player 11 has won the match. -/
def finishedGame : Game := { demoGame with gameWinner := 11 }

/-- A module state holding the concluded `finishedGame` under match id 1. -/
def finishedState : ModuleState :=
  { demoState with games := fun i => if i = 1 then some finishedGame else none }

/-- `demoGame` with both commitments stored (via `demoHash`) and player 22's
move already revealed, so the next reveal resolves the round. -/
def revealDemoGame : Game :=
  { demoGame with
    player1Commitment := demoHash 0 7, player2Commitment := demoHash 1 9,
    player2Move := ⟨1, 9⟩ }

/-- A module state holding `revealDemoGame` under match id 1. -/
def revealDemoState : ModuleState :=
  { demoState with games := fun i => if i = 1 then some revealDemoGame else none }

/-- Extracts the post-state of a successful commit or timeout call
(`emptyState` on failure); used only to build closed witness scenarios. -/
def exceptStateC : Except Err (ModuleState × Game) → ModuleState
  | .ok (st, _) => st
  | .error _ => emptyState

/-- Extracts the returned game of a successful commit or timeout call. -/
def exceptGameC : Except Err (ModuleState × Game) → Game
  | .ok (_, game) => game
  | .error _ => defaultGame

/-- Extracts the post-state of a successful reveal call. -/
def exceptStateR : Except Err (ModuleState × Game × Option PK) → ModuleState
  | .ok (st, _, _) => st
  | .error _ => emptyState

/-- The state after player 11 commits `demoHash 3 4` on `demoGame` at height 20. -/
def c7St1 : ModuleState := exceptStateC (commitMove demoState 20 11 1 (demoHash 3 4))

/-- The game record returned by that commit. -/
def c7G1 : Game := exceptGameC (commitMove demoState 20 11 1 (demoHash 3 4))

/-- A matchmaking handoff pairing players 11 and 22 with fee 5. -/
def c8Lobby : Lobby := ⟨fun i => if i = 0 then 11 else 22, 5⟩

/-- State after `initGame` at height 10: deadlines 60 and 110. -/
def c8St1 : ModuleState := (initGame emptyState 10 1 c8Lobby true).1

/-- State after player 11 commits at height 10. -/
def c8St2 : ModuleState := exceptStateC (commitMove c8St1 10 11 1 (demoHash 0 7))

/-- State after player 22 commits at height 10. -/
def c8St3 : ModuleState := exceptStateC (commitMove c8St2 10 22 1 (demoHash 1 9))

/-- State after player 11 reveals at height 10. -/
def c8St4 : ModuleState := exceptStateR (revealMove demoHash c8St3 10 11 1 ⟨0, 7⟩)

/-- State after player 22 reveals at height 10, resolving the round and
starting a new one — still at height 10. -/
def c8St5 : ModuleState := exceptStateR (revealMove demoHash c8St4 10 22 1 ⟨1, 9⟩)

/-- The pairs (move1, move2) in which the table awards the round to player 1. -/
def p1WinningPairs : List (Nat × Nat) :=
  [(0, 2), (0, 3), (1, 0), (1, 4), (2, 1), (2, 3), (3, 1), (3, 4), (4, 0), (4, 2)]

theorem detWin_eq_empty_iff (m1 m2 : F) (p1 p2 : PK)
    (hp1 : p1 ≠ emptyPK) (hp2 : p2 ≠ emptyPK) :
    determineWinner m1 m2 p1 p2 = emptyPK ↔ (p1Beats m1 m2 = false ∧ m1 = m2) := by
  by_cases hEq : m1 = m2
  · subst hEq
    by_cases hB : p1Beats m1 m1 = true <;> simp [determineWinner, hB, hp1, hp2]
  · by_cases hB : p1Beats m1 m2 = true <;> simp [determineWinner, hB, hEq, hp1, hp2]

theorem detWin_eq_p1_iff (m1 m2 : F) (p1 p2 : PK)
    (hp1 : p1 ≠ emptyPK) (hne : p1 ≠ p2) :
    determineWinner m1 m2 p1 p2 = p1 ↔ p1Beats m1 m2 = true := by
  by_cases hEq : m1 = m2
  · subst hEq
    by_cases hB : p1Beats m1 m1 = true <;>
      simp [determineWinner, hB, Ne.symm hp1, Ne.symm hne]
  · by_cases hB : p1Beats m1 m2 = true <;>
      simp [determineWinner, hB, hEq, Ne.symm hp1, Ne.symm hne]

theorem detWin_eq_p2_iff (m1 m2 : F) (p1 p2 : PK)
    (hp2 : p2 ≠ emptyPK) (hne : p1 ≠ p2) :
    determineWinner m1 m2 p1 p2 = p2 ↔ (p1Beats m1 m2 = false ∧ ¬ m1 = m2) := by
  by_cases hEq : m1 = m2
  · subst hEq
    by_cases hB : p1Beats m1 m1 = true <;>
      simp [determineWinner, hB, hne, Ne.symm hp2]
  · by_cases hB : p1Beats m1 m2 = true <;>
      simp [determineWinner, hB, hEq, hne, Ne.symm hp2]

/-- C1: over moves in {0..4}, `determineWinner` returns the empty winner (a
tie) exactly on equal moves, returns player 1 exactly on the ten tabulated
winning pairs, and returns player 2 on every other distinct pair, so every
unordered distinct pair has exactly one winner, consistent with the
five-symbol table. -/
theorem determineWinner_matches_table (p1 p2 : PK)
    (hp1 : p1 ≠ emptyPK) (hp2 : p2 ≠ emptyPK) (hne : p1 ≠ p2)
    (m1 m2 : Nat) (h1 : m1 < 5) (h2 : m2 < 5) :
    (determineWinner (m1 : F) (m2 : F) p1 p2 = emptyPK ↔ m1 = m2) ∧
    (determineWinner (m1 : F) (m2 : F) p1 p2 = p1 ↔ (m1, m2) ∈ p1WinningPairs) ∧
    (determineWinner (m1 : F) (m2 : F) p1 p2 = p2 ↔
      (¬ m1 = m2 ∧ (m1, m2) ∉ p1WinningPairs)) := by
  rw [detWin_eq_empty_iff _ _ _ _ hp1 hp2, detWin_eq_p1_iff _ _ _ _ hp1 hne,
    detWin_eq_p2_iff _ _ _ _ hp2 hne]
  interval_cases m1 <;> interval_cases m2 <;> decide

/-- Witness for C1: players 11 and 22, moves (0, 2). -/
theorem determineWinner_matches_table_witness :
    (determineWinner ((0 : Nat) : F) ((2 : Nat) : F) 11 22 = emptyPK ↔ (0 : Nat) = 2) ∧
    (determineWinner ((0 : Nat) : F) ((2 : Nat) : F) 11 22 = 11 ↔
      ((0 : Nat), (2 : Nat)) ∈ p1WinningPairs) ∧
    (determineWinner ((0 : Nat) : F) ((2 : Nat) : F) 11 22 = 22 ↔
      (¬ (0 : Nat) = 2 ∧ ((0 : Nat), (2 : Nat)) ∉ p1WinningPairs)) :=
  determineWinner_matches_table 11 22 (by decide) (by decide) (by decide) 0 2
    (by decide) (by decide)

/-- C2: `initGame` with `shouldInit = false` returns the allocated match id
and writes no state at all (no Game record, no escrow); with
`shouldInit = true` it persists the fresh Game (sentinel commitments and
moves, zero win counters, empty winner, deadlines `now + MOVE_TIME_LIMIT`
and `now + 2 * MOVE_TIME_LIMIT`) under the match id and escrows
`participationFee * 2`. -/
theorem initGame_spec (st : ModuleState) (now gameId : Nat) (lobby : Lobby) :
    initGame st now gameId lobby false = (st, gameId) ∧
    (initGame st now gameId lobby true).2 = gameId ∧
    (initGame st now gameId lobby true).1.games gameId =
      some { id := gameId, player1 := lobby.players 0, player2 := lobby.players 1,
             player1Commitment := 0, player2Commitment := 0,
             player1Move := sentinelMove, player2Move := sentinelMove,
             player1Wins := 0, player2Wins := 0,
             commitmentDeadline := now + MOVE_TIME_LIMIT,
             revealDeadline := now + 2 * MOVE_TIME_LIMIT,
             gameWinner := emptyPK, lastMoveBlockHeight := now } ∧
    (initGame st now gameId lobby true).1.gameFund gameId =
      some (lobby.participationFee * 2) := by
  refine ⟨rfl, rfl, ?_, ?_⟩
  · simp [initGame, Function.update_same, Nat.mul_comm]
  · simp [initGame, Function.update_same]

/-- C3: for an in-progress game and a caller who is one of the two
registered players, `claimTimeoutVictory` fails with `OpponentNotTimedOut`
exactly when the clock is at most `lastMoveBlockHeight + MOVE_TIME_LIMIT`;
strictly after that it succeeds, sets `gameWinner` to the caller's identity
and routes to Settlement (the `_onLobbyEnd` notification is recorded). -/
theorem claimTimeoutVictory_spec (st : ModuleState) (now : Nat) (sender : PK)
    (gameId : Nat) (g : Game) (hg : st.games gameId = some g)
    (hprog : g.gameWinner = emptyPK)
    (hplayer : sender = g.player1 ∨ sender = g.player2) :
    (claimTimeoutVictory st now sender gameId = .error .OpponentNotTimedOut ↔
      now ≤ g.lastMoveBlockHeight + MOVE_TIME_LIMIT) ∧
    (g.lastMoveBlockHeight + MOVE_TIME_LIMIT < now →
      claimTimeoutVictory st now sender gameId =
        .ok ({ endGame st { g with gameWinner := sender } with
                games := Function.update (endGame st { g with gameWinner := sender }).games
                  gameId (some { g with gameWinner := sender }) },
             { g with gameWinner := sender }) ∧
      (endGame st { g with gameWinner := sender }).lobbyEndCalls =
        st.lobbyEndCalls ++ [(g.id, true)]) := by
  have hwin : (if sender = g.player1 then g.player1 else g.player2) = sender := by
    rcases hplayer with h | h
    · simp [h]
    · by_cases h1 : sender = g.player1
      · simp [h1]
      · simp [h1, h.symm]
  constructor
  · constructor
    · intro he
      by_cases ht : g.lastMoveBlockHeight + MOVE_TIME_LIMIT < now
      · exfalso
        simp [claimTimeoutVictory, getGame, hg, hprog, ht] at he
      · omega
    · intro hle
      have ht : ¬ g.lastMoveBlockHeight + MOVE_TIME_LIMIT < now := by omega
      simp [claimTimeoutVictory, getGame, hg, hprog, ht]
  · intro ht
    refine ⟨?_, ?_⟩
    · simp [claimTimeoutVictory, getGame, hg, hprog, ht, hwin]
    · by_cases hw : sender = emptyPK <;> simp [endGame, hw]

/-- Witness for C3: player 11 claims the timeout on `demoGame` at height 61,
one block past the window. -/
theorem claimTimeoutVictory_spec_witness :
    (claimTimeoutVictory demoState 61 11 1 = .error .OpponentNotTimedOut ↔
      61 ≤ demoGame.lastMoveBlockHeight + MOVE_TIME_LIMIT) ∧
    (demoGame.lastMoveBlockHeight + MOVE_TIME_LIMIT < 61 →
      claimTimeoutVictory demoState 61 11 1 =
        .ok ({ endGame demoState { demoGame with gameWinner := 11 } with
                games := Function.update
                  (endGame demoState { demoGame with gameWinner := 11 }).games
                  1 (some { demoGame with gameWinner := 11 }) },
             { demoGame with gameWinner := 11 }) ∧
      (endGame demoState { demoGame with gameWinner := 11 }).lobbyEndCalls =
        demoState.lobbyEndCalls ++ [(demoGame.id, true)]) :=
  claimTimeoutVictory_spec demoState 61 11 1 demoGame rfl rfl (Or.inl rfl)

/-- C4: once `gameWinner` is non-empty, every subsequent `commitMove`,
`revealMove` or `claimTimeoutVictory` on that game aborts with
`GameFinished` (so no state is written and the concluded match is
permanently terminal). -/
theorem finished_game_is_terminal (hash : F → F → F) (st : ModuleState) (now : Nat)
    (sender : PK) (gameId : Nat) (g : Game) (c : F) (mv : RPSLSMove)
    (hg : st.games gameId = some g) (hfin : g.gameWinner ≠ emptyPK) :
    commitMove st now sender gameId c = .error .GameFinished ∧
    revealMove hash st now sender gameId mv = .error .GameFinished ∧
    claimTimeoutVictory st now sender gameId = .error .GameFinished := by
  refine ⟨?_, ?_, ?_⟩ <;>
    simp [commitMove, revealMove, claimTimeoutVictory, getGame, hg, hfin]

/-- Witness for C4: all three operations abort on the concluded `finishedGame`. -/
theorem finished_game_is_terminal_witness :
    commitMove finishedState 10 11 1 0 = .error .GameFinished ∧
    revealMove demoHash finishedState 10 11 1 sentinelMove = .error .GameFinished ∧
    claimTimeoutVictory finishedState 10 11 1 = .error .GameFinished :=
  finished_game_is_terminal demoHash finishedState 10 11 1 finishedGame 0 sentinelMove
    rfl (by decide)

/-- C6: `endGame` pays a non-empty winner with a 2:0 weighting against the
loser and splits 1:1 when no winner is set, clears both players' active
match pointers back to none, and notifies the matchmaking collaborator of
the match end with the winner flag set to true. -/
theorem endGame_spec (st : ModuleState) (g : Game) :
    (endGame st g).fundsCalls = st.fundsCalls ++
      [if g.gameWinner = emptyPK then AcquireFundsCall.mk g.id g.player1 g.player2 1 1 0
       else AcquireFundsCall.mk g.id g.gameWinner
         (if g.gameWinner = g.player1 then g.player2 else g.player1) 2 0 0] ∧
    (endGame st g).activeGameId g.player1 = 0 ∧
    (endGame st g).activeGameId g.player2 = 0 ∧
    (endGame st g).lobbyEndCalls = st.lobbyEndCalls ++ [(g.id, true)] := by
  by_cases hw : g.gameWinner = emptyPK <;>
    refine ⟨?_, ?_, ?_, ?_⟩ <;>
      simp [endGame, hw, Function.update_apply, ite_self]

/-- C10: `claimTimeoutVictory` never checks that the caller is a registered
player: after the window has elapsed, a sender who is neither player
succeeds and the match is concluded with `gameWinner = player2`. -/
theorem claimTimeoutVictory_nonplayer (st : ModuleState) (now : Nat) (sender : PK)
    (gameId : Nat) (g : Game) (hg : st.games gameId = some g)
    (hprog : g.gameWinner = emptyPK)
    (hs1 : sender ≠ g.player1) (_hs2 : sender ≠ g.player2)
    (ht : g.lastMoveBlockHeight + MOVE_TIME_LIMIT < now)
    (hp2 : g.player2 ≠ emptyPK) :
    claimTimeoutVictory st now sender gameId =
      .ok ({ endGame st { g with gameWinner := g.player2 } with
              games := Function.update (endGame st { g with gameWinner := g.player2 }).games
                gameId (some { g with gameWinner := g.player2 }) },
           { g with gameWinner := g.player2 }) ∧
    ({ g with gameWinner := g.player2 } : Game).gameWinner ≠ emptyPK := by
  refine ⟨?_, ?_⟩
  · simp [claimTimeoutVictory, getGame, hg, hprog, ht, hs1]
  · simpa using hp2

/-- Witness for C10: the stranger 33 claims the timeout on `demoGame` at
height 61 and victory goes to player 22. -/
theorem claimTimeoutVictory_nonplayer_witness :
    claimTimeoutVictory demoState 61 33 1 =
      .ok ({ endGame demoState { demoGame with gameWinner := demoGame.player2 } with
              games := Function.update
                (endGame demoState { demoGame with gameWinner := demoGame.player2 }).games
                1 (some { demoGame with gameWinner := demoGame.player2 }) },
           { demoGame with gameWinner := demoGame.player2 }) ∧
    ({ demoGame with gameWinner := demoGame.player2 } : Game).gameWinner ≠ emptyPK :=
  claimTimeoutVictory_nonplayer demoState 61 33 1 demoGame rfl rfl (by decide) (by decide)
    (by decide) (by decide)

theorem commitMove_ok_eq (st : ModuleState) (now : Nat) (sender : PK)
    (gameId : Nat) (g : Game) (c : F)
    (hg : st.games gameId = some g) (hprog : g.gameWinner = emptyPK)
    (hplayer : sender = g.player1 ∨ sender = g.player2)
    (hdl : now ≤ g.commitmentDeadline) :
    commitMove st now sender gameId c =
      .ok ({ st with games := Function.update st.games gameId (some
              (if sender = g.player1 then
                { g with player1Commitment := c, lastMoveBlockHeight := now }
               else
                { g with player2Commitment := c, lastMoveBlockHeight := now })) },
           if sender = g.player1 then
             { g with player1Commitment := c, lastMoveBlockHeight := now }
           else
             { g with player2Commitment := c, lastMoveBlockHeight := now }) := by
  by_cases hs : sender = g.player1
  · simp [commitMove, getGame, hg, hprog, hs, hdl]
  · have hs2 : sender = g.player2 := hplayer.resolve_left hs
    have hps : ¬ g.player2 = g.player1 := hs2 ▸ hs
    simp [commitMove, getGame, hg, hprog, hs, hs2, hps, hdl]

/-- C9: before the commitment deadline a registered player may commit again;
the call succeeds and the resulting record is the original game with only
that player's commitment slot replaced by the new commitment and
`lastMoveBlockHeight` restamped — every other field is unchanged. -/
theorem commitMove_overwrites (st : ModuleState) (now1 now2 : Nat) (sender : PK)
    (gameId : Nat) (g : Game) (c1 c2 : F)
    (hg : st.games gameId = some g) (hprog : g.gameWinner = emptyPK)
    (hplayer : sender = g.player1 ∨ sender = g.player2)
    (h1 : now1 ≤ g.commitmentDeadline) (h2 : now2 ≤ g.commitmentDeadline) :
    ∃ st1 g1,
      commitMove st now1 sender gameId c1 = .ok (st1, g1) ∧
      commitMove st1 now2 sender gameId c2 =
        .ok ({ st with games := Function.update st.games gameId (some
                (if sender = g.player1 then
                  { g with player1Commitment := c2, lastMoveBlockHeight := now2 }
                 else
                  { g with player2Commitment := c2, lastMoveBlockHeight := now2 })) },
             if sender = g.player1 then
               { g with player1Commitment := c2, lastMoveBlockHeight := now2 }
             else
               { g with player2Commitment := c2, lastMoveBlockHeight := now2 }) := by
  refine ⟨_, _, commitMove_ok_eq st now1 sender gameId g c1 hg hprog hplayer h1, ?_⟩
  by_cases hs : sender = g.player1
  · simp only [hs, if_pos rfl] at *
    simp [commitMove, getGame, Function.update_same, hprog, hs, h2,
      Function.update_idem]
  · have hs2 : sender = g.player2 := hplayer.resolve_left hs
    have hps : ¬ g.player2 = g.player1 := hs2 ▸ hs
    simp only [hs, if_neg hs] at *
    simp [commitMove, getGame, Function.update_same, hprog, hs, hs2, hps, h2,
      Function.update_idem]

/-- Witness for C9: player 11 commits 5 and then 9 on `demoGame`, both
before the deadline. -/
theorem commitMove_overwrites_witness :
    ∃ st1 g1,
      commitMove demoState 20 11 1 5 = .ok (st1, g1) ∧
      commitMove st1 30 11 1 9 =
        .ok ({ demoState with games := Function.update demoState.games 1 (some
                (if 11 = demoGame.player1 then
                  { demoGame with player1Commitment := 9, lastMoveBlockHeight := 30 }
                 else
                  { demoGame with player2Commitment := 9, lastMoveBlockHeight := 30 })) },
             if 11 = demoGame.player1 then
               { demoGame with player1Commitment := 9, lastMoveBlockHeight := 30 }
             else
               { demoGame with player2Commitment := 9, lastMoveBlockHeight := 30 }) :=
  commitMove_overwrites demoState 20 30 11 1 demoGame 5 9 rfl rfl (Or.inl rfl)
    (by decide) (by decide)

theorem revealMove_ok_eq (hash : F → F → F) (st : ModuleState) (now : Nat) (sender : PK)
    (gameId : Nat) (g : Game) (mv : RPSLSMove)
    (hg : st.games gameId = some g) (hprog : g.gameWinner = emptyPK)
    (hplayer : sender = g.player1 ∨ sender = g.player2)
    (hdl : now ≤ g.revealDeadline)
    (hmatch : hash mv.move mv.salt = senderCommitment sender g) :
    revealMove hash st now sender gameId mv =
      .ok (revealFinish st now gameId (storeReveal sender g mv)) := by
  by_cases hs : sender = g.player1
  · have hm : hash mv.move mv.salt = g.player1Commitment := by
      simpa [senderCommitment, hs] using hmatch
    simp [revealMove, getGame, hg, hprog, hdl, hs, hm, storeReveal]
  · have hs2 : sender = g.player2 := hplayer.resolve_left hs
    have hps : ¬ g.player2 = g.player1 := hs2 ▸ hs
    have hm : hash mv.move mv.salt = g.player2Commitment := by
      simpa [senderCommitment, hs] using hmatch
    simp [revealMove, getGame, hg, hprog, hdl, hs, hs2, hps, hm, storeReveal]

theorem revealMove_mismatch (hash : F → F → F) (st : ModuleState) (now : Nat) (sender : PK)
    (gameId : Nat) (g : Game) (mv : RPSLSMove)
    (hg : st.games gameId = some g) (hprog : g.gameWinner = emptyPK)
    (hplayer : sender = g.player1 ∨ sender = g.player2)
    (hdl : now ≤ g.revealDeadline)
    (hne : hash mv.move mv.salt ≠ senderCommitment sender g) :
    revealMove hash st now sender gameId mv = .error .RevealMismatch := by
  by_cases hs : sender = g.player1
  · have hm : ¬ hash mv.move mv.salt = g.player1Commitment := by
      simpa [senderCommitment, hs] using hne
    simp [revealMove, getGame, hg, hprog, hdl, hs, hm]
  · have hs2 : sender = g.player2 := hplayer.resolve_left hs
    have hps : ¬ g.player2 = g.player1 := hs2 ▸ hs
    have hm : ¬ hash mv.move mv.salt = g.player2Commitment := by
      simpa [senderCommitment, hs] using hne
    simp [revealMove, getGame, hg, hprog, hdl, hs, hs2, hps, hm]

theorem revealFinish_eq (st : ModuleState) (now gameId : Nat) (G : Game) :
    revealFinish st now gameId G =
      if G.player1Move.move ≠ (-1 : F) ∧ G.player2Move.move ≠ (-1 : F) then
        if (bumpWins G (roundWinnerOf G)).player1Wins = (ROUNDS_TO_WIN : F) then
          persistMove
            (endGame st { bumpWins G (roundWinnerOf G) with
                          gameWinner := (bumpWins G (roundWinnerOf G)).player1 })
            now gameId
            { bumpWins G (roundWinnerOf G) with
              gameWinner := (bumpWins G (roundWinnerOf G)).player1 }
            (some (roundWinnerOf G))
        else if (bumpWins G (roundWinnerOf G)).player2Wins = (ROUNDS_TO_WIN : F) then
          persistMove
            (endGame st { bumpWins G (roundWinnerOf G) with
                          gameWinner := (bumpWins G (roundWinnerOf G)).player2 })
            now gameId
            { bumpWins G (roundWinnerOf G) with
              gameWinner := (bumpWins G (roundWinnerOf G)).player2 }
            (some (roundWinnerOf G))
        else
          persistMove st now gameId (resetRound now (bumpWins G (roundWinnerOf G)))
            (some (roundWinnerOf G))
      else persistMove st now gameId G none := rfl

theorem commitMove_inversion (st : ModuleState) (now : Nat) (sender : PK)
    (gameId : Nat) (g : Game) (c : F) (st1 : ModuleState) (g1 : Game)
    (hg : st.games gameId = some g) (hprog : g.gameWinner = emptyPK)
    (hplayer : sender = g.player1 ∨ sender = g.player2)
    (hdl : now ≤ g.commitmentDeadline)
    (hcommit : commitMove st now sender gameId c = .ok (st1, g1)) :
    st1.games gameId = some g1 ∧
    g1.player1 = g.player1 ∧ g1.player2 = g.player2 ∧
    g1.gameWinner = g.gameWinner ∧ g1.revealDeadline = g.revealDeadline ∧
    g1.player1Move = g.player1Move ∧ g1.player2Move = g.player2Move ∧
    senderCommitment sender g1 = c := by
  have e1 := commitMove_ok_eq st now sender gameId g c hg hprog hplayer hdl
  rw [hcommit] at e1
  by_cases hs : sender = g.player1
  · simp only [if_pos hs, Except.ok.injEq, Prod.mk.injEq] at e1
    obtain ⟨hst, hgm⟩ := e1
    subst hst hgm
    refine ⟨by simp [Function.update_same], rfl, rfl, rfl, rfl, rfl, rfl, ?_⟩
    simp [senderCommitment, hs]
  · simp only [if_neg hs, Except.ok.injEq, Prod.mk.injEq] at e1
    obtain ⟨hst, hgm⟩ := e1
    subst hst hgm
    refine ⟨by simp [Function.update_same], rfl, rfl, rfl, rfl, rfl, rfl, ?_⟩
    simp [senderCommitment, hs]

/-- C7: after a successful `commitMove` of `hash m s`, a `revealMove` of
`(m, s)` by the same player within the reveal deadline always succeeds; if
the opponent has not yet revealed, the resulting record stores move
`(m, s)` in that player's slot; and a reveal whose hash differs from the
stored commitment always aborts with `RevealMismatch`. -/
theorem commit_reveal_roundtrip (hash : F → F → F) (st : ModuleState)
    (now now2 : Nat) (sender : PK) (gameId : Nat) (g : Game) (m s : F)
    (st1 : ModuleState) (g1 : Game)
    (hg : st.games gameId = some g) (hprog : g.gameWinner = emptyPK)
    (hplayer : sender = g.player1 ∨ sender = g.player2)
    (hc : now ≤ g.commitmentDeadline) (hr : now2 ≤ g.revealDeadline)
    (hcommit : commitMove st now sender gameId (hash m s) = .ok (st1, g1)) :
    (∃ r, revealMove hash st1 now2 sender gameId ⟨m, s⟩ = .ok r) ∧
    ((if sender = g.player1 then g.player2Move.move else g.player1Move.move) = (-1 : F) →
      ∃ st2 g2, revealMove hash st1 now2 sender gameId ⟨m, s⟩ = .ok (st2, g2, none) ∧
        (if sender = g.player1 then g2.player1Move else g2.player2Move) = ⟨m, s⟩) ∧
    (∀ m2 s2 : F, hash m2 s2 ≠ hash m s →
      revealMove hash st1 now2 sender gameId ⟨m2, s2⟩ = .error .RevealMismatch) := by
  obtain ⟨hg1, hp1, hp2, hw, hrd, hm1, hm2, hcom⟩ :=
    commitMove_inversion st now sender gameId g (hash m s) st1 g1
      hg hprog hplayer hc hcommit
  have hplayer1 : sender = g1.player1 ∨ sender = g1.player2 := by
    rw [hp1, hp2]; exact hplayer
  have hprog1 : g1.gameWinner = emptyPK := by rw [hw]; exact hprog
  have hr1 : now2 ≤ g1.revealDeadline := by rw [hrd]; exact hr
  have hmatch : hash (⟨m, s⟩ : RPSLSMove).move (⟨m, s⟩ : RPSLSMove).salt =
      senderCommitment sender g1 := hcom.symm
  refine ⟨⟨_, revealMove_ok_eq hash st1 now2 sender gameId g1 ⟨m, s⟩
      hg1 hprog1 hplayer1 hr1 hmatch⟩, ?_, ?_⟩
  · intro hOpp
    rw [revealMove_ok_eq hash st1 now2 sender gameId g1 ⟨m, s⟩
      hg1 hprog1 hplayer1 hr1 hmatch, revealFinish_eq]
    by_cases hs : sender = g.player1
    · have hs1 : sender = g1.player1 := by rw [hp1]; exact hs
      have hG : storeReveal sender g1 ⟨m, s⟩ = { g1 with player1Move := ⟨m, s⟩ } := by
        simp [storeReveal, hs1]
      have hOpp2 : g1.player2Move.move = (-1 : F) := by
        rw [hm2]; simpa [hs] using hOpp
      rw [if_neg]
      · refine ⟨_, _, rfl, ?_⟩
        rw [hs] at hG
        simp [persistMove, hG, hs]
      · rw [hG]
        simp [hOpp2]
    · have hs2 : sender = g1.player2 := by
        rw [hp2]; exact hplayer.resolve_left hs
      have hps1 : ¬ sender = g1.player1 := by rw [hp1]; exact hs
      have hG : storeReveal sender g1 ⟨m, s⟩ = { g1 with player2Move := ⟨m, s⟩ } := by
        simp [storeReveal, hps1]
      have hOpp1 : g1.player1Move.move = (-1 : F) := by
        rw [hm1]; simpa [hs] using hOpp
      rw [if_neg]
      · refine ⟨_, _, rfl, ?_⟩
        simp [persistMove, hG, hs]
      · rw [hG]
        simp [hOpp1]
  · intro m2 s2 hne
    refine revealMove_mismatch hash st1 now2 sender gameId g1 ⟨m2, s2⟩
      hg1 hprog1 hplayer1 hr1 ?_
    rw [hcom]
    exact hne

/-- Witness for C7: player 11 commits `demoHash 3 4` on `demoGame` at
height 20 and reveals `(3, 4)` at height 30. -/
theorem commit_reveal_roundtrip_witness :
    (∃ r, revealMove demoHash c7St1 30 11 1 ⟨3, 4⟩ = .ok r) ∧
    ((if 11 = demoGame.player1 then demoGame.player2Move.move
      else demoGame.player1Move.move) = (-1 : F) →
      ∃ st2 g2, revealMove demoHash c7St1 30 11 1 ⟨3, 4⟩ = .ok (st2, g2, none) ∧
        (if 11 = demoGame.player1 then g2.player1Move else g2.player2Move) = ⟨3, 4⟩) ∧
    (∀ m2 s2 : F, demoHash m2 s2 ≠ demoHash 3 4 →
      revealMove demoHash c7St1 30 11 1 ⟨m2, s2⟩ = .error .RevealMismatch) :=
  commit_reveal_roundtrip demoHash demoState 20 30 11 1 demoGame 3 4 c7St1 c7G1
    rfl rfl (Or.inl rfl) (by decide) (by decide) rfl

theorem afterWins_id (sender : PK) (g : Game) (mv : RPSLSMove) :
    (afterWins sender g mv).id = g.id := by
  unfold afterWins bumpWins storeReveal
  split_ifs <;> rfl

/-- C5: when a successful reveal makes both moves non-sentinel, then if
neither updated win counter equals the threshold the call resets both
commitments and moves to their sentinels and measures the new deadlines
from the current clock (`now + MOVE_TIME_LIMIT` and
`now + 2 * MOVE_TIME_LIMIT`); if a counter does reach the threshold the
call instead sets `gameWinner` to that player and invokes Settlement. -/
theorem revealMove_round_outcome (hash : F → F → F) (st : ModuleState) (now : Nat)
    (sender : PK) (gameId : Nat) (g : Game) (mv : RPSLSMove)
    (hg : st.games gameId = some g) (hprog : g.gameWinner = emptyPK)
    (hplayer : sender = g.player1 ∨ sender = g.player2)
    (hdl : now ≤ g.revealDeadline)
    (hmatch : hash mv.move mv.salt = senderCommitment sender g)
    (hboth : (storeReveal sender g mv).player1Move.move ≠ (-1 : F) ∧
             (storeReveal sender g mv).player2Move.move ≠ (-1 : F)) :
    ((afterWins sender g mv).player1Wins ≠ (ROUNDS_TO_WIN : F) →
     (afterWins sender g mv).player2Wins ≠ (ROUNDS_TO_WIN : F) →
      revealMove hash st now sender gameId mv =
        .ok ({ st with games := Function.update st.games gameId (some
                 { afterWins sender g mv with
                   player1Commitment := 0, player2Commitment := 0,
                   player1Move := sentinelMove, player2Move := sentinelMove,
                   commitmentDeadline := now + MOVE_TIME_LIMIT,
                   revealDeadline := now + 2 * MOVE_TIME_LIMIT,
                   lastMoveBlockHeight := now }) },
             { afterWins sender g mv with
               player1Commitment := 0, player2Commitment := 0,
               player1Move := sentinelMove, player2Move := sentinelMove,
               commitmentDeadline := now + MOVE_TIME_LIMIT,
               revealDeadline := now + 2 * MOVE_TIME_LIMIT,
               lastMoveBlockHeight := now },
             some (roundWinnerOf (storeReveal sender g mv)))) ∧
    ((afterWins sender g mv).player1Wins = (ROUNDS_TO_WIN : F) →
      ∃ st2, revealMove hash st now sender gameId mv =
        .ok (st2,
             { afterWins sender g mv with
               gameWinner := (afterWins sender g mv).player1,
               lastMoveBlockHeight := now },
             some (roundWinnerOf (storeReveal sender g mv))) ∧
        st2.lobbyEndCalls = st.lobbyEndCalls ++ [(g.id, true)]) ∧
    ((afterWins sender g mv).player1Wins ≠ (ROUNDS_TO_WIN : F) →
     (afterWins sender g mv).player2Wins = (ROUNDS_TO_WIN : F) →
      ∃ st2, revealMove hash st now sender gameId mv =
        .ok (st2,
             { afterWins sender g mv with
               gameWinner := (afterWins sender g mv).player2,
               lastMoveBlockHeight := now },
             some (roundWinnerOf (storeReveal sender g mv))) ∧
        st2.lobbyEndCalls = st.lobbyEndCalls ++ [(g.id, true)]) := by
  have hAW : bumpWins (storeReveal sender g mv) (roundWinnerOf (storeReveal sender g mv)) =
      afterWins sender g mv := rfl
  have base := revealMove_ok_eq hash st now sender gameId g mv hg hprog hplayer hdl hmatch
  rw [revealFinish_eq, if_pos hboth, hAW] at base
  have hid : (afterWins sender g mv).id = g.id := afterWins_id sender g mv
  refine ⟨?_, ?_, ?_⟩
  · intro hw1 hw2
    rw [base, if_neg hw1, if_neg hw2]
    rfl
  · intro hw1
    rw [base, if_pos hw1]
    refine ⟨_, rfl, ?_⟩
    by_cases hwE : (afterWins sender g mv).player1 = emptyPK <;>
      simp [endGame, persistMove, hwE, hid]
  · intro hw1 hw2
    rw [base, if_neg hw1, if_pos hw2]
    refine ⟨_, rfl, ?_⟩
    by_cases hwE : (afterWins sender g mv).player2 = emptyPK <;>
      simp [endGame, persistMove, hwE, hid]

/-- Witness for C5: player 11 reveals `(0, 7)` on `revealDemoGame` (player
22 already revealed `(1, 9)`), resolving a round that continues. -/
theorem revealMove_round_outcome_witness :
    ((afterWins 11 revealDemoGame ⟨0, 7⟩).player1Wins ≠ (ROUNDS_TO_WIN : F) →
     (afterWins 11 revealDemoGame ⟨0, 7⟩).player2Wins ≠ (ROUNDS_TO_WIN : F) →
      revealMove demoHash revealDemoState 20 11 1 ⟨0, 7⟩ =
        .ok ({ revealDemoState with games := Function.update revealDemoState.games 1 (some
                 { afterWins 11 revealDemoGame ⟨0, 7⟩ with
                   player1Commitment := 0, player2Commitment := 0,
                   player1Move := sentinelMove, player2Move := sentinelMove,
                   commitmentDeadline := 20 + MOVE_TIME_LIMIT,
                   revealDeadline := 20 + 2 * MOVE_TIME_LIMIT,
                   lastMoveBlockHeight := 20 }) },
             { afterWins 11 revealDemoGame ⟨0, 7⟩ with
               player1Commitment := 0, player2Commitment := 0,
               player1Move := sentinelMove, player2Move := sentinelMove,
               commitmentDeadline := 20 + MOVE_TIME_LIMIT,
               revealDeadline := 20 + 2 * MOVE_TIME_LIMIT,
               lastMoveBlockHeight := 20 },
             some (roundWinnerOf (storeReveal 11 revealDemoGame ⟨0, 7⟩)))) ∧
    ((afterWins 11 revealDemoGame ⟨0, 7⟩).player1Wins = (ROUNDS_TO_WIN : F) →
      ∃ st2, revealMove demoHash revealDemoState 20 11 1 ⟨0, 7⟩ =
        .ok (st2,
             { afterWins 11 revealDemoGame ⟨0, 7⟩ with
               gameWinner := (afterWins 11 revealDemoGame ⟨0, 7⟩).player1,
               lastMoveBlockHeight := 20 },
             some (roundWinnerOf (storeReveal 11 revealDemoGame ⟨0, 7⟩))) ∧
        st2.lobbyEndCalls = revealDemoState.lobbyEndCalls ++ [(revealDemoGame.id, true)]) ∧
    ((afterWins 11 revealDemoGame ⟨0, 7⟩).player1Wins ≠ (ROUNDS_TO_WIN : F) →
     (afterWins 11 revealDemoGame ⟨0, 7⟩).player2Wins = (ROUNDS_TO_WIN : F) →
      ∃ st2, revealMove demoHash revealDemoState 20 11 1 ⟨0, 7⟩ =
        .ok (st2,
             { afterWins 11 revealDemoGame ⟨0, 7⟩ with
               gameWinner := (afterWins 11 revealDemoGame ⟨0, 7⟩).player2,
               lastMoveBlockHeight := 20 },
             some (roundWinnerOf (storeReveal 11 revealDemoGame ⟨0, 7⟩))) ∧
        st2.lobbyEndCalls = revealDemoState.lobbyEndCalls ++ [(revealDemoGame.id, true)]) :=
  revealMove_round_outcome demoHash revealDemoState 20 11 1 revealDemoGame ⟨0, 7⟩
    rfl rfl (Or.inl rfl) (by decide) rfl (by decide)

/-- Counterexample to C8: a full round (init, both commits, both reveals)
executed entirely at block height 10 is accepted by every operation, begins
a new round (winner empty, moves reset), yet the new deadlines equal the
old ones (60 and 110) — they are not strictly greater. -/
theorem deadlines_can_stay_equal_on_new_round :
    (commitMove c8St1 10 11 1 (demoHash 0 7)).isOk = true ∧
    (commitMove c8St2 10 22 1 (demoHash 1 9)).isOk = true ∧
    (revealMove demoHash c8St3 10 11 1 ⟨0, 7⟩).isOk = true ∧
    (revealMove demoHash c8St4 10 22 1 ⟨1, 9⟩).isOk = true ∧
    (getGame c8St5 1).gameWinner = emptyPK ∧
    (getGame c8St5 1).player1Move = sentinelMove ∧
    (getGame c8St5 1).player2Move = sentinelMove ∧
    (getGame c8St1 1).commitmentDeadline = 60 ∧
    (getGame c8St5 1).commitmentDeadline = 60 ∧
    (getGame c8St1 1).revealDeadline = 110 ∧
    (getGame c8St5 1).revealDeadline = 110 ∧
    ¬ (getGame c8St1 1).commitmentDeadline < (getGame c8St5 1).commitmentDeadline ∧
    ¬ (getGame c8St1 1).revealDeadline < (getGame c8St5 1).revealDeadline := by
  decide

/-- C8 as amended: when a round resolves and continues, the new deadlines
are `now + MOVE_TIME_LIMIT` and `now + 2 * MOVE_TIME_LIMIT`; they strictly
exceed the ending round's deadlines whenever the current block height is
strictly greater than the height at which those deadlines were set (if the
whole round happened at one block height they stay equal). -/
theorem deadlines_increase_amended (hash : F → F → F) (st : ModuleState) (now : Nat)
    (sender : PK) (gameId : Nat) (g : Game) (mv : RPSLSMove) (h0 : Nat)
    (hg : st.games gameId = some g) (hprog : g.gameWinner = emptyPK)
    (hplayer : sender = g.player1 ∨ sender = g.player2)
    (hdl : now ≤ g.revealDeadline)
    (hmatch : hash mv.move mv.salt = senderCommitment sender g)
    (hboth : (storeReveal sender g mv).player1Move.move ≠ (-1 : F) ∧
             (storeReveal sender g mv).player2Move.move ≠ (-1 : F))
    (hw1 : (afterWins sender g mv).player1Wins ≠ (ROUNDS_TO_WIN : F))
    (hw2 : (afterWins sender g mv).player2Wins ≠ (ROUNDS_TO_WIN : F))
    (hcd : g.commitmentDeadline = h0 + MOVE_TIME_LIMIT)
    (hrd2 : g.revealDeadline = h0 + MOVE_TIME_LIMIT * 2)
    (hadv : h0 < now) :
    ∃ st2 g2, revealMove hash st now sender gameId mv =
        .ok (st2, g2, some (roundWinnerOf (storeReveal sender g mv))) ∧
      g.commitmentDeadline < g2.commitmentDeadline ∧
      g.revealDeadline < g2.revealDeadline := by
  have hAW : bumpWins (storeReveal sender g mv) (roundWinnerOf (storeReveal sender g mv)) =
      afterWins sender g mv := rfl
  have base := revealMove_ok_eq hash st now sender gameId g mv hg hprog hplayer hdl hmatch
  rw [revealFinish_eq, if_pos hboth, hAW] at base
  rw [base, if_neg hw1, if_neg hw2]
  refine ⟨_, _, rfl, ?_, ?_⟩
  · simp only [persistMove, resetRound]
    omega
  · simp only [persistMove, resetRound]
    omega

/-- Witness for the amended C8: player 11's reveal at height 20 on
`revealDemoGame` (whose deadlines were set at height 10) strictly advances
both deadlines. -/
theorem deadlines_increase_amended_witness :
    ∃ st2 g2, revealMove demoHash revealDemoState 20 11 1 ⟨0, 7⟩ =
        .ok (st2, g2, some (roundWinnerOf (storeReveal 11 revealDemoGame ⟨0, 7⟩))) ∧
      revealDemoGame.commitmentDeadline < g2.commitmentDeadline ∧
      revealDemoGame.revealDeadline < g2.revealDeadline :=
  deadlines_increase_amended demoHash revealDemoState 20 11 1 revealDemoGame ⟨0, 7⟩ 10
    rfl rfl (Or.inl rfl) (by decide) rfl (by decide) (by decide) (by decide)
    rfl rfl (by decide)

end PowerClash
